import Mathlib

/-!
A shallow embedding of the hera container-event handler (src/handler.go) and
verification of its specification.

The handler source is embedded directly.  External collaborators
(the docker client, net.LookupHost, the certificate store, the public-suffix
library) are modelled as oracle parameters gathered in `Env`.  The tunnel and
registry code of the repository is not part of the handler source file, so the
registry operations and the effect of starting/stopping a tunnel are modelled
from the spec; each such definition says so in its doc comment.

Go runtime panics (string slicing out of range, indexing an empty slice) are
modelled explicitly by the `HRes.crash` constructor, distinct from returned
Go error values (`HRes.err`).
-/

/-- Label key for the hostname label (handler.go constant heraHostname). -/
def heraHostname : String := "hera.hostname"

/-- Label key for the port label (handler.go constant heraPort). -/
def heraPort : String := "hera.port"

/-- Label key for the supplied-IP label (handler.go constant heraIP). -/
def heraIP : String := "hera.ip"

/-- Label key for the protocol label (handler.go constant heraProtocol). -/
def heraProtocol : String := "hera.protocol"

/-- Outcome of a Go computation: a normal value, a returned error value, or a
runtime panic. -/
inductive HRes (α : Type) where
  | ok (a : α)
  | err (e : String)
  | crash (m : String)
deriving DecidableEq

/-- The part of docker's container config the handler reads: the configured
hostname and the label map (modelled as an association list). -/
structure ContainerConfig where
  Hostname : String
  Labels : List (String × String)
deriving DecidableEq

/-- The part of docker's types.ContainerJSON the handler reads. -/
structure ContainerJSON where
  ID : String
  Config : ContainerConfig
deriving DecidableEq

/-- TunnelConfig as built by handleStartEvent: resolved IP, hostname, port,
protocol. -/
structure TunnelConfig where
  IP : String
  Hostname : String
  Port : String
  Protocol : String
deriving DecidableEq

/-- Modelled from the spec: a Certificate is an opaque TLS credential bound to
a root domain, obtained from the certificate store (certificate code is not in
the handler source). -/
structure Certificate where
  rootDomain : String
deriving DecidableEq

/-- Modelled from the spec: a Tunnel is created from a TunnelConfig and a
Certificate; its identity for lookup purposes is its hostname (tunnel code is
not in the handler source). -/
structure Tunnel where
  config : TunnelConfig
  cert : Certificate
deriving DecidableEq

/-- Modelled from the spec: NewTunnel constructs a Tunnel from a config and a
certificate. -/
def NewTunnel (config : TunnelConfig) (cert : Certificate) : Tunnel :=
  Tunnel.mk config cert

/-- Modelled from the spec: the TunnelRegistry, the mapping from hostname to
active tunnel, represented as an association list. -/
abbrev Registry := List (String × Tunnel)

/-- Modelled from the spec: Put unconditionally replaces any existing entry
for the hostname. -/
def RegistryPut (reg : Registry) (hostname : String) (t : Tunnel) : Registry :=
  (hostname, t) :: reg.filter (fun p => !(p.1 == hostname))

/-- Modelled from the spec: Remove deletes the entry for the hostname if
present, and is a no-op if absent. -/
def RegistryRemove (reg : Registry) (hostname : String) : Registry :=
  reg.filter (fun p => !(p.1 == hostname))

/-- Modelled from the spec: GetTunnelForHost returns the registered tunnel for
the hostname, or a not-found error when no entry exists. -/
def GetTunnelForHost (reg : Registry) (hostname : String) : Except String Tunnel :=
  match reg.find? (fun p => p.1 == hostname) with
  | none => Except.error ("No tunnel exists for " ++ hostname)
  | some p => Except.ok p.2

/-- Number of registry entries stored under a given hostname (specification
observation used to state uniqueness). -/
def RegistryCount (reg : Registry) (hostname : String) : Nat :=
  (reg.filter (fun p => p.1 == hostname)).length

/-- Oracles for the external collaborators of the handler:
`inspect` models Client.Inspect (none is an inspection failure);
`lookup` models net.LookupHost for a target hostname, indexed by the 0-based
number of calls already made for this resolution (none is a lookup error);
`findCert` models FindCertificateForHost by root domain;
`psl` is the recognized public suffix list of the publicsuffix library;
`stopOk` tells whether Tunnel.Stop succeeds on a given tunnel. -/
structure Env where
  inspect : String → Option ContainerJSON
  lookup : String → Nat → Option (List String)
  findCert : String → Option Certificate
  psl : List String
  stopOk : Tunnel → Bool

/-- getLabel returns the label value for a given label name, or the empty
string if the label is absent (handler.go getLabel). -/
def getLabel (name : String) (container : ContainerJSON) : String :=
  match container.Config.Labels.find? (fun p => p.1 == name) with
  | none => ""
  | some p => p.2

deriving instance DecidableEq for Except

/-- Splits a hostname into its dot-separated labels (the label view used by
the publicsuffix model; e.g. a.example.com gives the labels a, example, com,
and a leading, trailing or doubled dot gives an empty label). -/
def splitOnDots (s : String) : List String :=
  s.data.foldr
    (fun c acc =>
      match acc with
      | [] => [String.mk [c]]
      | l :: rest => if c = '.' then "" :: l :: rest else String.mk (c :: l.data) :: rest)
    [""]

/-- Modelled from the spec: the public-suffix match used by the external
publicsuffix library — the number of labels of the longest recognized public
suffix of the hostname, falling back to the last label (length 1) when no
listed suffix matches, as the library does for unknown TLDs. -/
def pslMatchLen (psl : List String) (ls : List String) : Nat :=
  ((List.range (ls.length + 1)).filter
    (fun k => decide (0 < k) &&
      psl.contains (String.intercalate "." (ls.drop (ls.length - k))))).foldl max 1

/-- Modelled from the spec: the external publicsuffix library's
EffectiveTLDPlusOne — errors on a malformed hostname (empty label) or when the
hostname does not extend its public suffix by at least one label; otherwise
returns the suffix plus one leading label. -/
def effectiveTLDPlusOne (psl : List String) (domain : String) : Except String String :=
  let ls := splitOnDots domain
  if ls.contains "" then
    Except.error ("publicsuffix: empty label in domain " ++ domain)
  else
    let k := pslMatchLen psl ls
    if ls.length ≤ k then
      Except.error ("publicsuffix: cannot derive eTLD plus one for domain " ++ domain)
    else
      Except.ok (String.intercalate "." (ls.drop (ls.length - (k + 1))))

/-- getRootDomain returns the registrable root domain for a hostname
(handler.go getRootDomain, delegating to the publicsuffix model). -/
def getRootDomain (psl : List String) (hostname : String) : Except String String :=
  match effectiveTLDPlusOne psl hostname with
  | Except.error e => Except.error e
  | Except.ok domain => Except.ok domain

/-- getCertificate resolves the root domain of a hostname and looks up a
certificate for it in the store (handler.go getCertificate; the store itself
is the findCert oracle). -/
def getCertificate (env : Env) (hostname : String) : Except String Certificate :=
  match getRootDomain env.psl hostname with
  | Except.error e => Except.error e
  | Except.ok root =>
    match env.findCert root with
    | none => Except.error ("No certificate found for host " ++ root)
    | some cert => Except.ok cert

/-- Result of a resolveHostname run: the outcome together with the final value
of the attempts counter and the total seconds spent sleeping. -/
structure ResolveOut where
  result : HRes String
  attempts : Nat
  sleptSeconds : Nat
deriving DecidableEq

/-- The retry loop of handler.go resolveHostname.  The loop runs while
attempts < maxAttempts; fuel is maxAttempts - attempts.  Each iteration
increments attempts and performs one lookup; on failure it sleeps 2 seconds
and retries.  On success it returns the first resolved address (a Go panic if
the resolver returned an empty slice).  On exhaustion it formats an error from
the first 12 bytes of the container ID (a Go panic when the ID is shorter
than 12 bytes). -/
def resolveLoop (lookup : Nat → Option (List String)) (id : String) :
    Nat → Nat → Nat → ResolveOut
  | attempts, slept, 0 =>
    if id.utf8ByteSize < 12 then
      ResolveOut.mk (HRes.crash ("slice bounds out of range")) attempts slept
    else
      ResolveOut.mk (HRes.err ("Unable to connect to " ++ id.take 12)) attempts slept
  | attempts, slept, fuel + 1 =>
    match lookup attempts with
    | none => resolveLoop lookup id (attempts + 1) (slept + 2) fuel
    | some resolved =>
      match resolved with
      | [] => ResolveOut.mk (HRes.crash ("index out of range")) (attempts + 1) slept
      | a :: _ => ResolveOut.mk (HRes.ok a) (attempts + 1) slept

/-- The fixed attempt bound of resolveHostname (handler.go maxAttempts). -/
def maxAttempts : Nat := 5

/-- resolveHostname resolves the container's configured hostname with at most
maxAttempts lookups (handler.go resolveHostname). -/
def resolveHostname (env : Env) (container : ContainerJSON) : ResolveOut :=
  resolveLoop (env.lookup container.Config.Hostname) container.ID 0 0 maxAttempts

/-- Result of a start sequence: the outcome, the registry afterwards, and the
number of tunnels constructed and started. -/
structure StartOut where
  result : HRes Unit
  reg : Registry
  tunnelsStarted : Nat
deriving DecidableEq

/-- handleStartEvent (handler.go): inspect the container, read its labels,
skip it unless both hostname and port labels are set, log (which slices the
container ID to 12 bytes and panics on a shorter ID), resolve the configured
hostname, apply the supplied-IP override and the http protocol default, fetch
a certificate, then build, start and register a tunnel.  The registration is
modelled from the spec (starting a tunnel inserts it into the TunnelRegistry
under its hostname; tunnel code is not in the handler source). -/
def handleStartEvent (env : Env) (reg : Registry) (eventID : String) : StartOut :=
  match env.inspect eventID with
  | none => StartOut.mk (HRes.err ("inspect error")) reg 0
  | some container =>
    let hostname := getLabel heraHostname container
    let port := getLabel heraPort container
    let supplied_ip := getLabel heraIP container
    let protocol := getLabel heraProtocol container
    if hostname = "" ∨ port = "" then
      StartOut.mk (HRes.ok ()) reg 0
    else if container.ID.utf8ByteSize < 12 then
      StartOut.mk (HRes.crash ("slice bounds out of range")) reg 0
    else
      match (resolveHostname env container).result with
      | HRes.crash m => StartOut.mk (HRes.crash m) reg 0
      | HRes.err e => StartOut.mk (HRes.err e) reg 0
      | HRes.ok resolvedIP =>
        let ip := if supplied_ip ≠ "" then supplied_ip else resolvedIP
        let protocol := if protocol = "" then "http" else protocol
        match getCertificate env hostname with
        | Except.error e => StartOut.mk (HRes.err e) reg 0
        | Except.ok cert =>
          let config := TunnelConfig.mk ip hostname port protocol
          let tunnel := NewTunnel config cert
          StartOut.mk (HRes.ok ()) (RegistryPut reg hostname tunnel) 1

/-- Result of a stop sequence: the outcome, the registry afterwards, and the
number of times the tunnel's Stop action was invoked. -/
structure DieOut where
  result : HRes Unit
  reg : Registry
  stops : Nat
deriving DecidableEq

/-- handleDieEvent (handler.go): inspect the container, read its hostname
label, skip if empty, look up the registered tunnel, and stop it.  The removal
of the registry entry after a successful stop is modelled from the spec
(tunnel code is not in the handler source); on a failed stop the error is
returned and the entry stays. -/
def handleDieEvent (env : Env) (reg : Registry) (eventID : String) : DieOut :=
  match env.inspect eventID with
  | none => DieOut.mk (HRes.err ("inspect error")) reg 0
  | some container =>
    let hostname := getLabel "hera.hostname" container
    if hostname = "" then
      DieOut.mk (HRes.ok ()) reg 0
    else
      match GetTunnelForHost reg hostname with
      | Except.error e => DieOut.mk (HRes.err e) reg 0
      | Except.ok tunnel =>
        if env.stopOk tunnel then
          DieOut.mk (HRes.ok ()) (RegistryRemove reg hostname) 1
        else
          DieOut.mk (HRes.err ("tunnel stop failed")) reg 1

/-- The docker lifecycle event message fields the handler reads. -/
structure Message where
  Status : String
  ID : String
deriving DecidableEq

/-- Result of event dispatch: the outcome (a crash propagates, error values do
not), the registry afterwards, and the errors written to the log. -/
structure EventOut where
  result : HRes Unit
  reg : Registry
  logs : List String
deriving DecidableEq

/-- HandleEvent (handler.go): dispatch on the event status.  A start status
runs the start sequence, a die status runs the stop sequence, anything else is
a no-op.  Errors returned by either sequence are logged with log.Error and not
propagated; HandleEvent itself returns nothing.  A Go panic, by contrast,
propagates. -/
def HandleEvent (env : Env) (reg : Registry) (event : Message) : EventOut :=
  if event.Status = "start" then
    match handleStartEvent env reg event.ID with
    | StartOut.mk (HRes.err e) r _ => EventOut.mk (HRes.ok ()) r [e]
    | StartOut.mk (HRes.crash m) r _ => EventOut.mk (HRes.crash m) r []
    | StartOut.mk (HRes.ok _) r _ => EventOut.mk (HRes.ok ()) r []
  else if event.Status = "die" then
    match handleDieEvent env reg event.ID with
    | DieOut.mk (HRes.err e) r _ => EventOut.mk (HRes.ok ()) r [e]
    | DieOut.mk (HRes.crash m) r _ => EventOut.mk (HRes.crash m) r []
    | DieOut.mk (HRes.ok _) r _ => EventOut.mk (HRes.ok ()) r []
  else
    EventOut.mk (HRes.ok ()) reg []

/-! ### Concrete test fixtures used by witnesses -/

/-- A recognized public suffix list fragment used in concrete runs. -/
def pslW : List String := ["com", "uk", "co.uk"]

/-- A certificate for the root domain example.com. -/
def certW : Certificate := Certificate.mk "example.com"

/-- An opted-in container with a 15-byte ID. -/
def containerW : ContainerJSON :=
  ContainerJSON.mk "abc123def456xyz" (ContainerConfig.mk "a.example.com"
    [("hera.hostname", "a.example.com"), ("hera.port", "8080")])

/-- An opted-in container whose ID is only 5 bytes long. -/
def containerShortW : ContainerJSON :=
  ContainerJSON.mk "short" (ContainerConfig.mk "a.example.com"
    [("hera.hostname", "a.example.com"), ("hera.port", "8080")])

/-- An opted-in container carrying a supplied-IP label. -/
def containerIpW : ContainerJSON :=
  ContainerJSON.mk "bbb123def456xyz" (ContainerConfig.mk "b.example.com"
    [("hera.hostname", "b.example.com"), ("hera.port", "8080"), ("hera.ip", "5.6.7.8")])

/-- A container with no hera labels at all. -/
def containerPlainW : ContainerJSON :=
  ContainerJSON.mk "ccc123def456xyz" (ContainerConfig.mk "c.example.com" [])

/-- A concrete environment: the resolver fails twice and then resolves, a
certificate exists for example.com, and tunnel stops succeed. -/
def envW : Env :=
  Env.mk
    (fun id =>
      if id == "abc123def456xyz" then some containerW
      else if id == "short" then some containerShortW
      else if id == "bbb123def456xyz" then some containerIpW
      else if id == "ccc123def456xyz" then some containerPlainW
      else none)
    (fun _ k => if k < 2 then none else some ["1.2.3.4", "9.9.9.9"])
    (fun root => if root == "example.com" then some certW else none)
    pslW
    (fun _ => true)

/-- Like envW but the certificate store is empty. -/
def envNoCertW : Env :=
  Env.mk envW.inspect envW.lookup (fun _ => none) pslW (fun _ => true)

/-- Like envW but the resolver always fails and tunnel stops fail. -/
def envFailW : Env :=
  Env.mk envW.inspect (fun _ _ => none) envW.findCert pslW (fun _ => false)

/-- The tunnel that envW builds for containerW. -/
def tunnelW : Tunnel :=
  NewTunnel (TunnelConfig.mk "1.2.3.4" "a.example.com" "8080" "http") certW

/-- A registry holding exactly the tunnel for a.example.com. -/
def regW : Registry := [("a.example.com", tunnelW)]

/-! ### Registry lemmas -/

theorem registry_filter_ne_then_eq (reg : Registry) (h : String) :
    (reg.filter (fun p => !(p.1 == h))).filter (fun p => p.1 == h) = [] := by
  induction reg with
  | nil => rfl
  | cons p rest ih =>
    by_cases hp : p.1 == h
    · simp [List.filter_cons, hp, ih]
    · simp only [Bool.not_eq_true] at hp
      simp [List.filter_cons, hp, ih]

theorem RegistryCount_put (reg : Registry) (h : String) (t : Tunnel) :
    RegistryCount (RegistryPut reg h t) h = 1 := by
  simp [RegistryCount, RegistryPut, List.filter_cons, registry_filter_ne_then_eq]

theorem registry_find_remove (reg : Registry) (h : String) :
    (RegistryRemove reg h).find? (fun p => p.1 == h) = none := by
  unfold RegistryRemove
  induction reg with
  | nil => rfl
  | cons p rest ih =>
    by_cases hp : p.1 == h
    · simp [List.filter_cons, hp, ih]
    · simp only [Bool.not_eq_true] at hp
      simp [List.filter_cons, List.find?, hp, ih]

theorem GetTunnelForHost_remove (reg : Registry) (h : String) :
    GetTunnelForHost (RegistryRemove reg h) h =
      Except.error ("No tunnel exists for " ++ h) := by
  simp [GetTunnelForHost, registry_find_remove]

/-! ### Claim theorems -/

/-- C5: for every container whose hostname label or port label is empty or
absent, the start sequence returns success, creates no tunnel, and performs no
registry mutation. -/
theorem start_skips_unlabeled (env : Env) (reg : Registry) (eventID : String)
    (container : ContainerJSON) (hins : env.inspect eventID = some container)
    (hskip : getLabel heraHostname container = "" ∨ getLabel heraPort container = "") :
    handleStartEvent env reg eventID = StartOut.mk (HRes.ok ()) reg 0 := by
  simp only [handleStartEvent, hins]
  rw [if_pos hskip]

/-- Witness for C5: a container with no hera labels is skipped without error
and without touching the registry. -/
theorem start_skips_unlabeled_witness :
    handleStartEvent envW regW "ccc123def456xyz" = StartOut.mk (HRes.ok ()) regW 0 :=
  start_skips_unlabeled envW regW "ccc123def456xyz" containerPlainW (by decide)
    (Or.inl (by decide))

/-- C9: for every die event whose container has a non-empty hostname label but
no tunnel registered for that hostname, the stop sequence returns the
not-found error and leaves the TunnelRegistry unchanged. -/
theorem die_not_found_unchanged (env : Env) (reg : Registry) (eventID : String)
    (container : ContainerJSON) (hins : env.inspect eventID = some container)
    (hh : getLabel heraHostname container ≠ "") (e : String)
    (hget : GetTunnelForHost reg (getLabel heraHostname container) = Except.error e) :
    handleDieEvent env reg eventID = DieOut.mk (HRes.err e) reg 0 := by
  simp only [handleDieEvent, hins]
  rw [show ("hera.hostname" : String) = heraHostname from rfl]
  rw [if_neg hh, hget]

/-- Witness for C9: a die event against an empty registry fails with the
not-found error and leaves the registry empty. -/
theorem die_not_found_unchanged_witness :
    handleDieEvent envW [] "abc123def456xyz" =
      DieOut.mk (HRes.err ("No tunnel exists for a.example.com")) [] 0 :=
  die_not_found_unchanged envW [] "abc123def456xyz" containerW (by decide) (by decide)
    ("No tunnel exists for a.example.com") (by decide)

/-- C10: for every opted-in container whose ID is shorter than 12 bytes, the
start sequence ends in a Go runtime panic (the container.ID slice in the log
call) instead of returning an error value. -/
theorem start_short_id_crashes (env : Env) (reg : Registry) (eventID : String)
    (container : ContainerJSON) (hins : env.inspect eventID = some container)
    (hh : getLabel heraHostname container ≠ "") (hp : getLabel heraPort container ≠ "")
    (hshort : container.ID.utf8ByteSize < 12) :
    handleStartEvent env reg eventID =
      StartOut.mk (HRes.crash ("slice bounds out of range")) reg 0 := by
  simp only [handleStartEvent, hins]
  rw [if_neg (not_or.mpr ⟨hh, hp⟩), if_pos hshort]

/-- Witness for C10: an opted-in container with the 5-byte ID short panics. -/
theorem start_short_id_crashes_witness :
    handleStartEvent envW regW "short" =
      StartOut.mk (HRes.crash ("slice bounds out of range")) regW 0 :=
  start_short_id_crashes envW regW "short" containerShortW (by decide) (by decide)
    (by decide) (by decide)

/-- C7: for every opted-in container, a certificate-resolution failure aborts
the start sequence with that error, with no tunnel constructed or started and
the registry untouched. -/
theorem start_requires_certificate (env : Env) (reg : Registry) (eventID : String)
    (container : ContainerJSON) (hins : env.inspect eventID = some container)
    (hh : getLabel heraHostname container ≠ "") (hp : getLabel heraPort container ≠ "")
    (hid : ¬ container.ID.utf8ByteSize < 12) (ip : String)
    (hres : (resolveHostname env container).result = HRes.ok ip) (e : String)
    (hcert : getCertificate env (getLabel heraHostname container) = Except.error e) :
    handleStartEvent env reg eventID = StartOut.mk (HRes.err e) reg 0 := by
  simp only [handleStartEvent, hins]
  rw [if_neg (not_or.mpr ⟨hh, hp⟩), if_neg hid, hres, hcert]

/-- Witness for C7: with an empty certificate store the start sequence fails
with the no-certificate error and starts no tunnel. -/
theorem start_requires_certificate_witness :
    handleStartEvent envNoCertW [] "abc123def456xyz" =
      StartOut.mk (HRes.err ("No certificate found for host example.com")) [] 0 :=
  start_requires_certificate envNoCertW [] "abc123def456xyz" containerW (by decide)
    (by decide) (by decide) (by decide) "1.2.3.4" (by decide)
    ("No certificate found for host example.com") (by decide)

/-- C1: every successful start sequence for an opted-in container registers
the constructed tunnel under the container's hostname label, and afterwards
exactly one registry entry exists for that hostname. -/
theorem start_registers_tunnel (env : Env) (reg : Registry) (eventID : String)
    (container : ContainerJSON) (hins : env.inspect eventID = some container)
    (hh : getLabel heraHostname container ≠ "") (hp : getLabel heraPort container ≠ "")
    (hid : ¬ container.ID.utf8ByteSize < 12) (ip : String)
    (hres : (resolveHostname env container).result = HRes.ok ip) (cert : Certificate)
    (hcert : getCertificate env (getLabel heraHostname container) = Except.ok cert) :
    (handleStartEvent env reg eventID).result = HRes.ok () ∧
    (∃ t : Tunnel,
      (handleStartEvent env reg eventID).reg =
        RegistryPut reg (getLabel heraHostname container) t ∧
      GetTunnelForHost (handleStartEvent env reg eventID).reg
        (getLabel heraHostname container) = Except.ok t) ∧
    RegistryCount (handleStartEvent env reg eventID).reg
      (getLabel heraHostname container) = 1 := by
  have hrun : handleStartEvent env reg eventID =
      StartOut.mk (HRes.ok ())
        (RegistryPut reg (getLabel heraHostname container)
          (NewTunnel (TunnelConfig.mk
            (if getLabel heraIP container ≠ "" then getLabel heraIP container else ip)
            (getLabel heraHostname container) (getLabel heraPort container)
            (if getLabel heraProtocol container = "" then "http"
              else getLabel heraProtocol container)) cert)) 1 := by
    simp only [handleStartEvent, hins]
    rw [if_neg (not_or.mpr ⟨hh, hp⟩), if_neg hid, hres, hcert]
  rw [hrun]
  refine ⟨rfl, ⟨_, rfl, ?_⟩, RegistryCount_put reg _ _⟩
  simp [GetTunnelForHost, RegistryPut, List.find?]

/-- Witness for C1: the start event for containerW registers its tunnel and
the registry holds exactly one entry for a.example.com. -/
theorem start_registers_tunnel_witness :
    (handleStartEvent envW [] "abc123def456xyz").result = HRes.ok () ∧
    RegistryCount (handleStartEvent envW [] "abc123def456xyz").reg
      (getLabel heraHostname containerW) = 1 := by
  have h := start_registers_tunnel envW [] "abc123def456xyz" containerW (by decide)
    (by decide) (by decide) (by decide) "1.2.3.4" (by decide) certW (by decide)
  exact ⟨h.1, h.2.2⟩

/-- C2: for every die event whose container has a non-empty hostname label and
a registered tunnel, a successful Stop (invoked exactly once) removes the
registry entry for that hostname; on a failed Stop the entry stays. -/
theorem die_removes_after_stop (env : Env) (reg : Registry) (eventID : String)
    (container : ContainerJSON) (hins : env.inspect eventID = some container)
    (hh : getLabel heraHostname container ≠ "") (t : Tunnel)
    (hget : GetTunnelForHost reg (getLabel heraHostname container) = Except.ok t) :
    (env.stopOk t = true →
      handleDieEvent env reg eventID =
        DieOut.mk (HRes.ok ()) (RegistryRemove reg (getLabel heraHostname container)) 1 ∧
      GetTunnelForHost (handleDieEvent env reg eventID).reg
        (getLabel heraHostname container) =
        Except.error ("No tunnel exists for " ++ getLabel heraHostname container)) ∧
    (env.stopOk t = false →
      (handleDieEvent env reg eventID).reg = reg ∧
      (handleDieEvent env reg eventID).result = HRes.err ("tunnel stop failed")) := by
  have hrun : handleDieEvent env reg eventID =
      (if env.stopOk t then
        DieOut.mk (HRes.ok ()) (RegistryRemove reg (getLabel heraHostname container)) 1
      else DieOut.mk (HRes.err ("tunnel stop failed")) reg 1) := by
    simp only [handleDieEvent, hins]
    rw [show ("hera.hostname" : String) = heraHostname from rfl]
    rw [if_neg hh, hget]
  constructor
  · intro hstop
    rw [hrun, if_pos hstop]
    exact ⟨rfl, GetTunnelForHost_remove reg _⟩
  · intro hstop
    rw [hrun, if_neg (by simp [hstop])]
    exact ⟨rfl, rfl⟩

/-- Witness for C2: a die event for containerW with its tunnel registered
stops it once and removes the registry entry. -/
theorem die_removes_after_stop_witness :
    handleDieEvent envW regW "abc123def456xyz" =
      DieOut.mk (HRes.ok ()) (RegistryRemove regW (getLabel heraHostname containerW)) 1 :=
  ((die_removes_after_stop envW regW "abc123def456xyz" containerW (by decide) (by decide)
    tunnelW (by decide)).1 (by decide)).1

/-- C6: every successful start sequence builds its TunnelConfig with the
supplied-IP label when non-empty (otherwise the resolved address) and the
protocol label when non-empty (otherwise http); and a resolution failure
aborts the sequence with that error even when the supplied-IP label is set. -/
theorem start_config_ip_protocol (env : Env) (reg : Registry) (eventID : String)
    (container : ContainerJSON) (hins : env.inspect eventID = some container)
    (hh : getLabel heraHostname container ≠ "") (hp : getLabel heraPort container ≠ "")
    (hid : ¬ container.ID.utf8ByteSize < 12) :
    (∀ ip cert, (resolveHostname env container).result = HRes.ok ip →
      getCertificate env (getLabel heraHostname container) = Except.ok cert →
      handleStartEvent env reg eventID =
        StartOut.mk (HRes.ok ())
          (RegistryPut reg (getLabel heraHostname container)
            (NewTunnel (TunnelConfig.mk
              (if getLabel heraIP container ≠ "" then getLabel heraIP container else ip)
              (getLabel heraHostname container) (getLabel heraPort container)
              (if getLabel heraProtocol container = "" then "http"
                else getLabel heraProtocol container)) cert)) 1) ∧
    (∀ e, (resolveHostname env container).result = HRes.err e →
      handleStartEvent env reg eventID = StartOut.mk (HRes.err e) reg 0) := by
  constructor
  · intro ip cert hres hcert
    simp only [handleStartEvent, hins]
    rw [if_neg (not_or.mpr ⟨hh, hp⟩), if_neg hid, hres, hcert]
  · intro e hres
    simp only [handleStartEvent, hins]
    rw [if_neg (not_or.mpr ⟨hh, hp⟩), if_neg hid, hres]

/-- Witness for C6: containerIpW carries the supplied-IP label 5.6.7.8 and no
protocol label, so its tunnel config uses 5.6.7.8 and http. -/
theorem start_config_ip_protocol_witness :
    handleStartEvent envW [] "bbb123def456xyz" =
      StartOut.mk (HRes.ok ())
        (RegistryPut [] (getLabel heraHostname containerIpW)
          (NewTunnel (TunnelConfig.mk
            (if getLabel heraIP containerIpW ≠ "" then getLabel heraIP containerIpW
              else "1.2.3.4")
            (getLabel heraHostname containerIpW) (getLabel heraPort containerIpW)
            (if getLabel heraProtocol containerIpW = "" then "http"
              else getLabel heraProtocol containerIpW)) certW)) 1 :=
  (start_config_ip_protocol envW [] "bbb123def456xyz" containerIpW (by decide) (by decide)
    (by decide) (by decide)).1 "1.2.3.4" certW (by decide) (by decide)

/-- C3: HandleEvent runs the start sequence on status start and the stop
sequence on status die, is a no-op on any other status, and turns sequence
error values into log entries instead of propagating them, so its own result
is never an error value. -/
theorem handle_event_dispatch (env : Env) (reg : Registry) (event : Message) :
    (event.Status = "start" →
      (HandleEvent env reg event).reg = (handleStartEvent env reg event.ID).reg ∧
      (∀ e, (handleStartEvent env reg event.ID).result = HRes.err e →
        HandleEvent env reg event =
          EventOut.mk (HRes.ok ()) (handleStartEvent env reg event.ID).reg [e])) ∧
    (event.Status = "die" →
      (HandleEvent env reg event).reg = (handleDieEvent env reg event.ID).reg ∧
      (∀ e, (handleDieEvent env reg event.ID).result = HRes.err e →
        HandleEvent env reg event =
          EventOut.mk (HRes.ok ()) (handleDieEvent env reg event.ID).reg [e])) ∧
    (event.Status ≠ "start" → event.Status ≠ "die" →
      HandleEvent env reg event = EventOut.mk (HRes.ok ()) reg []) ∧
    (∀ e, (HandleEvent env reg event).result ≠ HRes.err e) := by
  by_cases hs : event.Status = "start"
  · have hH : HandleEvent env reg event =
        (match handleStartEvent env reg event.ID with
        | StartOut.mk (HRes.err e) r _ => EventOut.mk (HRes.ok ()) r [e]
        | StartOut.mk (HRes.crash m) r _ => EventOut.mk (HRes.crash m) r []
        | StartOut.mk (HRes.ok _) r _ => EventOut.mk (HRes.ok ()) r []) := by
      unfold HandleEvent
      rw [if_pos hs]
    rcases heq : handleStartEvent env reg event.ID with ⟨res, r, n⟩
    refine ⟨fun _ => ?_, fun hd => absurd (hs.symm.trans hd) (by decide),
      fun hns => absurd hs hns, ?_⟩
    · rw [hH, heq]
      cases res <;> simp
    · rw [hH, heq]
      cases res <;> simp
  · by_cases hd : event.Status = "die"
    · have hH : HandleEvent env reg event =
          (match handleDieEvent env reg event.ID with
          | DieOut.mk (HRes.err e) r _ => EventOut.mk (HRes.ok ()) r [e]
          | DieOut.mk (HRes.crash m) r _ => EventOut.mk (HRes.crash m) r []
          | DieOut.mk (HRes.ok _) r _ => EventOut.mk (HRes.ok ()) r []) := by
        unfold HandleEvent
        rw [if_neg hs, if_pos hd]
      rcases heq : handleDieEvent env reg event.ID with ⟨res, r, n⟩
      refine ⟨fun hhs => absurd hhs hs, fun _ => ?_, fun _ hnd => absurd hd hnd, ?_⟩
      · rw [hH, heq]
        cases res <;> simp
      · rw [hH, heq]
        cases res <;> simp
    · have hH : HandleEvent env reg event = EventOut.mk (HRes.ok ()) reg [] := by
        unfold HandleEvent
        rw [if_neg hs, if_neg hd]
      exact ⟨fun hhs => absurd hhs hs, fun hhd => absurd hhd hd, fun _ _ => hH,
        fun e => by rw [hH]; exact fun hc => HRes.noConfusion hc⟩

/-- Witness for C3: an event with an unrecognized status leaves the registry
untouched, logs nothing and returns no error. -/
theorem handle_event_dispatch_witness :
    HandleEvent envW regW (Message.mk "create" "abc123def456xyz") =
      EventOut.mk (HRes.ok ()) regW [] :=
  (handle_event_dispatch envW regW (Message.mk "create" "abc123def456xyz")).2.2.1
    (by decide) (by decide)

/-- Behavior of the retry loop against a resolver stub that fails on the
first N calls and succeeds from call N on: starting at attempt counter t ≤ N,
the loop either reaches the successful call within the remaining fuel (total
attempts N + 1, one 2-second sleep per failure) or exhausts the fuel (one
attempt and one sleep per fuel unit). -/
theorem resolveLoop_stub (N : Nat) (a : String) (rest : List String)
    (L : Nat → Option (List String)) (id : String)
    (hL : ∀ k, L k = if k < N then none else some (a :: rest))
    (hid : ¬ id.utf8ByteSize < 12) :
    ∀ (fuel t slept : Nat), t ≤ N →
      resolveLoop L id t slept fuel =
        if N < t + fuel then ResolveOut.mk (HRes.ok a) (N + 1) (slept + 2 * (N - t))
        else ResolveOut.mk
          (HRes.err ("Unable to connect to " ++ id.take 12)) (t + fuel) (slept + 2 * fuel) := by
  intro fuel
  induction fuel with
  | zero =>
    intro t slept ht
    rw [if_neg (by omega)]
    simp [resolveLoop, hid]
  | succ f ih =>
    intro t slept ht
    by_cases htN : t < N
    · have hcall : L t = none := by rw [hL t, if_pos htN]
      have hrec : resolveLoop L id t slept (f + 1) =
          resolveLoop L id (t + 1) (slept + 2) f := by
        simp [resolveLoop, hcall]
      rw [hrec, ih (t + 1) (slept + 2) (by omega)]
      by_cases hin : N < t + (f + 1)
      · rw [if_pos (by omega), if_pos hin]
        have : slept + 2 + 2 * (N - (t + 1)) = slept + 2 * (N - t) := by omega
        rw [this]
      · rw [if_neg (by omega), if_neg hin]
        have h1 : t + 1 + f = t + (f + 1) := by omega
        have h2 : slept + 2 + 2 * f = slept + 2 * (f + 1) := by omega
        rw [h1, h2]
    · have htEq : t = N := by omega
      have hcall : L t = some (a :: rest) := by rw [hL t, if_neg htN]
      rw [if_pos (by omega)]
      subst htEq
      simp [resolveLoop, hcall]

/-- C4: against a resolver stub failing N times then succeeding, Resolve
succeeds iff N < 5, performing exactly N + 1 attempts with a 2-second sleep
after each failure and returning the first address of the successful lookup;
with N ≥ 5 (in particular an always-failing resolver) it fails after exactly
5 attempts and 5 sleeps. -/
theorem resolve_retry_bound (env : Env) (container : ContainerJSON) (N : Nat)
    (a : String) (rest : List String)
    (hL : ∀ k, env.lookup container.Config.Hostname k =
      if k < N then none else some (a :: rest))
    (hid : ¬ container.ID.utf8ByteSize < 12) :
    (N < 5 → resolveHostname env container =
      ResolveOut.mk (HRes.ok a) (N + 1) (2 * N)) ∧
    (5 ≤ N → resolveHostname env container =
      ResolveOut.mk
        (HRes.err ("Unable to connect to " ++ container.ID.take 12)) 5 10) := by
  have hloop := resolveLoop_stub N a rest (env.lookup container.Config.Hostname)
    container.ID hL hid 5 0 0 (by omega)
  constructor
  · intro h5
    rw [resolveHostname, maxAttempts, hloop, if_pos (by omega)]
    simp
  · intro h5
    rw [resolveHostname, maxAttempts, hloop, if_neg (by omega)]

/-- Witness for C4: with the envW stub (two failures, then success) the
resolver returns 1.2.3.4 after exactly 3 attempts and 4 seconds asleep. -/
theorem resolve_retry_bound_witness :
    resolveHostname envW containerW = ResolveOut.mk (HRes.ok "1.2.3.4") 3 4 :=
  (resolve_retry_bound envW containerW 2 "1.2.3.4" ["9.9.9.9"] (fun _ => rfl)
    (by decide)).1 (by omega)

/-- C8: root-domain reduction maps both example.co.uk and api.example.co.uk
to example.co.uk, and a hostname whose suffix is not a recognized public
suffix (and carries no further label) yields an error value, not a crash. -/
theorem root_domain_etld_plus_one :
    getRootDomain pslW "example.co.uk" = Except.ok "example.co.uk" ∧
    getRootDomain pslW "api.example.co.uk" = Except.ok "example.co.uk" ∧
    getRootDomain pslW "unknownsuffix" =
      Except.error
        ("publicsuffix: cannot derive eTLD plus one for domain unknownsuffix") := by
  refine ⟨by decide, by decide, by decide⟩
